import Mathlib

/-!
Verification of the learning/adaptation and request-direction core of the
elite_coding_assistant repository against its natural-language specification.

The definitions below are a shallow embedding of the Python source:
`src/learning_adaptation.py` (PerformanceTracker, AdaptiveRoutingEngine,
SystemAdaptationEngine) and `src/main/coding_director.py` (CodingDirector).
Python floats are modelled as rationals (`ℚ`), datetimes as natural-number
ticks, dictionaries holding heterogeneous decision data as structures, and
the asynchronous Supabase pattern store as an explicit `Except`-valued query
function (its possible failure is the `Except.error` case, mirroring the
`try/except` blocks of the source).
-/

/-! ## PerformanceTracker (src/learning_adaptation.py, lines 91-267) -/

/-- Mirror of the `PerformanceMetrics` dataclass.  The `last_updated`
datetime field carries no arithmetic content and is modelled as a tick. -/
structure PerformanceMetrics where
  success_rate : ℚ
  avg_response_time_ms : ℚ
  user_satisfaction : ℚ
  accuracy_score : ℚ
  efficiency_score : ℚ
  sample_size : ℕ
  last_updated : ℕ
deriving Repr, DecidableEq

/-- The zero-initialised metrics created on first interaction for a backend
(`record_interaction`, lines 122-131). -/
def initialMetrics : PerformanceMetrics :=
  { success_rate := 0
    avg_response_time_ms := 0
    user_satisfaction := 0
    accuracy_score := 0
    efficiency_score := 0
    sample_size := 0
    last_updated := 0 }

/-- One call to `record_interaction`: the response time, the success flag and
the optional user rating. -/
structure Interaction where
  response_time_ms : ℚ
  success : Bool
  user_rating : Option ℚ
deriving Repr, DecidableEq

/-- Mirror of `PerformanceTracker.record_interaction` (lines 116-168) acting
on the metrics of a single backend.  Each running average is updated with
the source's formula `(old * old_size + new_value) / new_size`; the
satisfaction average is only touched when a rating is supplied and the
efficiency average only when the response time is positive, yet both divide
by the full `new_size`.  The trend-history append (lines 162-165) only feeds
`get_performance_trends`, which no claim touches, and is not modelled. -/
def record_interaction (m : PerformanceMetrics) (i : Interaction) : PerformanceMetrics :=
  let old_size : ℚ := m.sample_size
  let new_size : ℚ := old_size + 1
  let success_value : ℚ := if i.success then 1 else 0
  { success_rate := (m.success_rate * old_size + success_value) / new_size
    avg_response_time_ms := (m.avg_response_time_ms * old_size + i.response_time_ms) / new_size
    user_satisfaction :=
      match i.user_rating with
      | some r => (m.user_satisfaction * old_size + r) / new_size
      | none => m.user_satisfaction
    accuracy_score := m.accuracy_score
    efficiency_score :=
      if 0 < i.response_time_ms then
        (m.efficiency_score * old_size + success_value / (i.response_time_ms / 1000)) / new_size
      else m.efficiency_score
    sample_size := m.sample_size + 1
    last_updated := m.last_updated + 1 }

/-- A whole sequence of `record_interaction` calls for one backend. -/
def recordAll (m : PerformanceMetrics) (is : List Interaction) : PerformanceMetrics :=
  is.foldl record_interaction m

/-- Mirror of the `LearningMetric` enum (only the members used by
`identify_performance_issues`). -/
inductive LearningMetric where
  | routing_accuracy
  | response_quality
  | user_satisfaction
  | response_time
  | success_rate
deriving Repr, DecidableEq

/-- One entry of the list returned by `identify_performance_issues`. -/
structure PerformanceIssue where
  model : String
  metric : LearningMetric
  current_value : ℚ
  threshold : ℚ
  severity : String
deriving Repr, DecidableEq

/-- The configurable `performance_thresholds` dictionary of the tracker. -/
structure PerformanceThresholds where
  success_rate : ℚ
  user_satisfaction : ℚ
  response_time : ℚ
  routing_accuracy : ℚ
deriving Repr, DecidableEq

/-- The defaults set in `PerformanceTracker.__init__` (lines 109-114). -/
def defaultThresholds : PerformanceThresholds :=
  { success_rate := 85/100
    user_satisfaction := 4
    response_time := 10000
    routing_accuracy := 80/100 }

/-- The issues contributed by one tracked backend, mirroring the body of the
`for model_name, metrics in self.model_metrics.items()` loop of
`identify_performance_issues` (lines 208-238).  Note the satisfaction check
additionally requires `user_satisfaction > 0`. -/
def issuesFor (th : PerformanceThresholds) (name : String) (m : PerformanceMetrics) :
    List PerformanceIssue :=
  (if m.success_rate < th.success_rate then
    [{ model := name
       metric := .success_rate
       current_value := m.success_rate
       threshold := th.success_rate
       severity := if m.success_rate < 7/10 then "high" else "medium" }]
   else []) ++
  (if th.response_time < m.avg_response_time_ms then
    [{ model := name
       metric := .response_time
       current_value := m.avg_response_time_ms
       threshold := th.response_time
       severity := if 15000 < m.avg_response_time_ms then "high" else "medium" }]
   else []) ++
  (if 0 < m.user_satisfaction ∧ m.user_satisfaction < th.user_satisfaction then
    [{ model := name
       metric := .user_satisfaction
       current_value := m.user_satisfaction
       threshold := th.user_satisfaction
       severity := if m.user_satisfaction < 3 then "high" else "medium" }]
   else [])

/-- Mirror of `PerformanceTracker.identify_performance_issues`
(lines 204-240); `model_metrics` is modelled as an association list to keep
the source's iteration order. -/
def identify_performance_issues (th : PerformanceThresholds)
    (model_metrics : List (String × PerformanceMetrics)) : List PerformanceIssue :=
  model_metrics.flatMap fun p => issuesFor th p.1 p.2

/-! ## AdaptiveRoutingEngine (src/learning_adaptation.py, lines 270-544) -/

/-- The request context dictionary as consumed by `_extract_features`:
`context.get('type', 'general')` and `context.get('domain_hints', [])`.
The unused `user_preferences` entry is not modelled. -/
structure RequestContext where
  context_type : String
  domain_hints : List String
deriving Repr, DecidableEq

/-- The feature dictionary produced by `_extract_features` (lines 323-356). -/
structure Features where
  prompt_length : ℕ
  word_count : ℕ
  math_score : ℕ
  architecture_score : ℕ
  debug_score : ℕ
  has_code : Bool
  complexity_indicators : ℕ
  question_marks : ℕ
  context_type : String
  domain_hints : List String
  estimated_complexity : ℚ
deriving Repr, DecidableEq

def math_keywords : List String :=
  ["algorithm", "complexity", "optimize", "mathematical", "calculate",
   "sort", "search", "graph", "tree", "dynamic programming", "recursion"]

def architecture_keywords : List String :=
  ["design", "architecture", "system", "scalable", "microservices",
   "pattern", "structure", "framework"]

def debug_keywords : List String :=
  ["debug", "error", "fix", "issue", "problem", "bug", "troubleshoot"]

/-- Model of Python's `str.lower()`: lowercase every character. -/
def pyLower (s : String) : String := String.mk (s.data.map Char.toLower)

/-- Model of Python's `str.strip()`: drop leading and trailing
whitespace. -/
def pyStrip (s : String) : String :=
  String.mk (((s.data.dropWhile Char.isWhitespace).reverse.dropWhile Char.isWhitespace).reverse)

/-- Mirror of `AdaptiveRoutingEngine._extract_features` (lines 323-356).
Keyword scores count how many keywords of each category occur as substrings
of the lowercased prompt (`kw in prompt_lower`); `word_count` models
Python's whitespace `str.split()`. -/
def extract_features (user_prompt : String) (context : RequestContext) : Features :=
  let prompt_lower := pyLower user_prompt
  let math_score := math_keywords.countP fun kw => prompt_lower.containsSubstr kw
  let architecture_score := architecture_keywords.countP fun kw => prompt_lower.containsSubstr kw
  let debug_score := debug_keywords.countP fun kw => prompt_lower.containsSubstr kw
  let complexity_indicators :=
    (["complex", "advanced", "sophisticated"]).countP fun w => prompt_lower.containsSubstr w
  { prompt_length := user_prompt.length
    word_count := ((user_prompt.split fun c => c.isWhitespace).filter fun w => w ≠ "").length
    math_score := math_score
    architecture_score := architecture_score
    debug_score := debug_score
    has_code := user_prompt.containsSubstr "```" || user_prompt.containsSubstr "def "
      || prompt_lower.containsSubstr "function"
    complexity_indicators := complexity_indicators
    question_marks := user_prompt.toList.count '?'
    context_type := context.context_type
    domain_hints := context.domain_hints
    estimated_complexity :=
      min 1 (((math_score : ℚ) * (3/10) + (architecture_score : ℚ) * (4/10)
        + (complexity_indicators : ℚ) * (3/10)) / 5) }

/-- A recommendation dictionary as produced by `_get_pattern_recommendation`
or `_get_rule_recommendation`: model, confidence, source tag and reasoning.
The source tags used by the code are the literal strings
"learned_patterns", "rule_based" and "fallback" (the spec abbreviates the
first two as "learned" and "rule"). -/
structure Recommendation where
  model : String
  confidence : ℚ
  source : String
  reasoning : String
deriving Repr, DecidableEq

/-- Mirror of `AdaptiveRoutingEngine._get_rule_recommendation`
(lines 408-441). -/
def get_rule_recommendation (features : Features) : Recommendation :=
  if 2 ≤ features.math_score then
    { model := "mathstral:7b"
      confidence := 8/10
      source := "rule_based"
      reasoning := "High math score: " ++ toString features.math_score }
  else if 2 ≤ features.architecture_score ∨ 7/10 < features.estimated_complexity then
    { model := "wizardcoder:13b-python"
      confidence := 7/10
      source := "rule_based"
      reasoning := "Architecture/complexity indicators" }
  else if 1 ≤ features.debug_score then
    { model := "codellama:13b"
      confidence := 6/10
      source := "rule_based"
      reasoning := "Debug-related request" }
  else
    { model := "deepseek-coder-v2:16b-lite-instruct"
      confidence := 5/10
      source := "rule_based"
      reasoning := "Default general coding model" }

/-- Mirror of `AdaptiveRoutingEngine._create_feature_signature`
(lines 478-487); `int(x)` on the non-negative complexity is a floor. -/
def create_feature_signature (features : Features) : String :=
  String.intercalate "_"
    [toString features.math_score, toString features.architecture_score,
     toString features.debug_score, toString ⌊features.estimated_complexity * 10⌋,
     toString features.domain_hints.length]

/-- The keyword list rebuilt from feature scores, shared verbatim by
`_get_pattern_recommendation` (lines 371-377) and `update_routing_patterns`
(lines 511-517). -/
def patternKeywords (features : Features) : List String :=
  (if 0 < features.math_score then ["algorithm", "mathematical"] else []) ++
  (if 0 < features.architecture_score then ["architecture", "design"] else []) ++
  (if 0 < features.debug_score then ["debug", "troubleshoot"] else [])

/-- One entry of the decision cache `pattern_cache`: the cached
recommendation and the tick at which it was stored. -/
structure CacheEntry where
  recommendation : Recommendation
  timestamp : ℕ
deriving Repr, DecidableEq

/-- The `pattern_cache` dictionary, keyed by feature signature.  A newer
entry for a key shadows an older one, modelling dictionary overwrite. -/
abbrev PatternCache : Type := List (String × CacheEntry)

/-- The PatternStore boundary (`SupabaseLearningClient
.get_routing_recommendation`): given keywords, domain hints and complexity it
either fails (`Except.error`, modelling a raised exception), reports no
matching pattern, or returns `(backend, confidence)`. -/
abbrev PatternQuery : Type := List String → List String → ℚ → Except Unit (Option (String × ℚ))

/-- Mirror of `AdaptiveRoutingEngine._get_pattern_recommendation`
(lines 358-406): consult the 5-minute cache, otherwise query the store; a
store failure is caught and treated as no recommendation; a successful
lookup is cached.  Returns the optional recommendation and the new cache.
The source formats the confidence with `{confidence:.3f}` in the reasoning
string; the formatting is abstracted by `toString`. -/
def get_pattern_recommendation (query : PatternQuery) (cache : PatternCache) (now : ℕ)
    (features : Features) : Option Recommendation × PatternCache :=
  let sig := create_feature_signature features
  let fresh : Option Recommendation :=
    match List.lookup sig cache with
    | some e => if now - e.timestamp < 300 then some e.recommendation else none
    | none => none
  match fresh with
  | some r => (some r, cache)
  | none =>
    match query (patternKeywords features) features.domain_hints features.estimated_complexity with
    | .error _ => (none, cache)
    | .ok none => (none, cache)
    | .ok (some (model_name, confidence)) =>
      let r : Recommendation :=
        { model := model_name
          confidence := confidence
          source := "learned_patterns"
          reasoning := "Pattern match with " ++ toString confidence ++ " confidence" }
      (some r, (sig, { recommendation := r, timestamp := now }) :: cache)

/-- Mirror of `AdaptiveRoutingEngine._get_fallback_models` (lines 467-476). -/
def get_fallback_models (primary_model : String) : List String :=
  if primary_model = "mathstral:7b" then
    ["wizardcoder:13b-python", "deepseek-coder-v2:16b-lite-instruct"]
  else if primary_model = "deepseek-coder-v2:16b-lite-instruct" then
    ["codellama:13b", "wizardcoder:13b-python"]
  else if primary_model = "codellama:13b" then
    ["deepseek-coder-v2:16b-lite-instruct", "wizardcoder:13b-python"]
  else if primary_model = "wizardcoder:13b-python" then
    ["deepseek-coder-v2:16b-lite-instruct", "codellama:13b"]
  else ["deepseek-coder-v2:16b-lite-instruct"]

/-- The routing decision dictionary.  `_combine_recommendations` always adds
a `features` entry; `_get_fallback_routing` never does, which is modelled by
the `Option`. -/
structure RoutingDecision where
  model : String
  confidence : ℚ
  source : String
  reasoning : String
  fallback_models : List String
  features : Option Features
  timestamp : ℕ
deriving Repr, DecidableEq

/-- Mirror of `AdaptiveRoutingEngine._combine_recommendations`
(lines 443-465): the pattern recommendation wins exactly when it exists with
confidence at or above `confidence_threshold`; otherwise the rule
recommendation is used, and only in that branch an agreeing pattern boosts
its confidence by 0.2 (capped at 1) and appends the confirmation note. -/
def combine_recommendations (pattern_rec : Option Recommendation)
    (rule_rec : Recommendation) (features : Features) (confidence_threshold : ℚ)
    (now : ℕ) : RoutingDecision :=
  match pattern_rec with
  | some p =>
    if confidence_threshold ≤ p.confidence then
      { model := p.model
        confidence := p.confidence
        source := p.source
        reasoning := p.reasoning
        fallback_models := get_fallback_models p.model
        features := some features
        timestamp := now }
    else
      { model := rule_rec.model
        confidence :=
          if p.model = rule_rec.model then min 1 (rule_rec.confidence + 2/10)
          else rule_rec.confidence
        source := rule_rec.source
        reasoning :=
          if p.model = rule_rec.model then rule_rec.reasoning ++ " (confirmed by patterns)"
          else rule_rec.reasoning
        fallback_models := get_fallback_models rule_rec.model
        features := some features
        timestamp := now }
  | none =>
    { model := rule_rec.model
      confidence := rule_rec.confidence
      source := rule_rec.source
      reasoning := rule_rec.reasoning
      fallback_models := get_fallback_models rule_rec.model
      features := some features
      timestamp := now }

/-- Mirror of `AdaptiveRoutingEngine._get_fallback_routing` (lines 489-498):
the hard-coded decision returned when the decision pipeline raised.  It has
no `features` entry. -/
def get_fallback_routing (now : ℕ) : RoutingDecision :=
  { model := "deepseek-coder-v2:16b-lite-instruct"
    confidence := 3/10
    source := "fallback"
    reasoning := "Fallback routing due to system error"
    fallback_models := ["codellama:13b", "wizardcoder:13b-python"]
    features := none
    timestamp := now }

/-- Mirror of the `try` body of `AdaptiveRoutingEngine.get_routing_decision`
(lines 296-317): extract features, consult patterns, compute the rule
recommendation, combine.  Returns the decision and the updated cache. -/
def get_routing_decision (query : PatternQuery) (cache : PatternCache)
    (confidence_threshold : ℚ) (now : ℕ) (user_prompt : String)
    (context : RequestContext) : RoutingDecision × PatternCache :=
  let features := extract_features user_prompt context
  let pr := get_pattern_recommendation query cache now features
  let rule_rec := get_rule_recommendation features
  (combine_recommendations pr.1 rule_rec features confidence_threshold now, pr.2)

/-- The `try/except` skeleton of `get_routing_decision` (lines 298-321): a
completed body yields its decision, any escaped internal error yields the
hard-coded fallback decision — the method itself never raises. -/
def routing_decision_recovered (attempt : Except Unit RoutingDecision) (now : ℕ) :
    RoutingDecision :=
  match attempt with
  | .ok d => d
  | .error _ => get_fallback_routing now

/-- The mutable state of the engine touched by outcome reporting: the
bounded rolling accuracy history (`deque(maxlen=1000)`) and the decision
cache. -/
structure RoutingState where
  routing_accuracy_history : List ℚ
  pattern_cache : PatternCache

/-- `deque(maxlen=1000)` append: the oldest entries are evicted once the
history holds 1000 values. -/
def appendBounded (h : List ℚ) (v : ℚ) : List ℚ :=
  let h2 := h ++ [v]
  h2.drop (h2.length - 1000)

/-- The arguments forwarded to `SupabaseLearningClient
.update_routing_pattern` by `update_routing_patterns` (lines 520-526). -/
structure PatternUpdate where
  keywords : List String
  domain_context : List String
  complexity : ℚ
  model_used : String
  success : Bool
deriving Repr, DecidableEq

/-- Mirror of `AdaptiveRoutingEngine.update_routing_patterns`
(lines 500-537): a decision without a `features` entry returns immediately;
otherwise the outcome is forwarded to the pattern store, `1.0`/`0.0` is
appended to the accuracy history, and the decision cache is cleared.
Returns the new state and the list of store updates performed. -/
def update_routing_patterns (st : RoutingState) (routing_decision : RoutingDecision)
    (success : Bool) : RoutingState × List PatternUpdate :=
  match routing_decision.features with
  | none => (st, [])
  | some features =>
    ({ routing_accuracy_history :=
        appendBounded st.routing_accuracy_history (if success then 1 else 0)
       pattern_cache := [] },
     [{ keywords := patternKeywords features
        domain_context := features.domain_hints
        complexity := features.estimated_complexity
        model_used := routing_decision.model
        success := success }])

/-- Mirror of `AdaptiveRoutingEngine.get_routing_accuracy` (lines 539-544). -/
def get_routing_accuracy (st : RoutingState) : ℚ :=
  if st.routing_accuracy_history = [] then 0
  else st.routing_accuracy_history.sum / st.routing_accuracy_history.length

/-! ## SystemAdaptationEngine (src/learning_adaptation.py, lines 547-863) -/

/-- Mirror of the threshold update in `SystemAdaptationEngine
._optimize_routing` (lines 687-707): given the current routing accuracy and
the current confidence threshold, lower the threshold by 0.1 (floor 0.5)
when accuracy is below 0.8, otherwise raise it by 0.05 (ceiling 0.9). -/
def optimize_routing_threshold (accuracy current_threshold : ℚ) : ℚ :=
  if accuracy < 8/10 then max (1/2) (current_threshold - 1/10)
  else min (9/10) (current_threshold + 1/20)

/-- Repeated `routing_optimization` applications: each cycle observes some
routing accuracy and updates the threshold. -/
def iterate_optimize_routing (accuracies : List ℚ) (threshold : ℚ) : ℚ :=
  accuracies.foldl (fun t a => optimize_routing_threshold a t) threshold

/-- The per-model health score of `get_system_health_score` (lines 840-844):
`success_rate*0.4 + min(1, 5000/max(1, avg_response_time_ms))*0.3
 + min(1, user_satisfaction/5)*0.3`. -/
def model_score (m : PerformanceMetrics) : ℚ :=
  m.success_rate * (4/10) + min 1 (5000 / max 1 m.avg_response_time_ms) * (3/10)
    + min 1 (m.user_satisfaction / 5) * (3/10)

/-- The sample-size weight of `get_system_health_score` (line 846):
`min(1, sample_size / 100)`. -/
def sample_weight (m : PerformanceMetrics) : ℚ :=
  min 1 ((m.sample_size : ℚ) / 100)

/-- The backends that pass the `sample_size < 5: continue` guard of the
health-score loop (lines 835-837). -/
def qualifying_metrics (model_metrics : List (String × PerformanceMetrics)) :
    List (String × PerformanceMetrics) :=
  model_metrics.filter fun p => 5 ≤ p.2.sample_size

/-- The `total_weight` accumulator of the health-score loop. -/
def health_total_weight (model_metrics : List (String × PerformanceMetrics)) : ℚ :=
  ((qualifying_metrics model_metrics).map fun p => sample_weight p.2).sum

/-- The `total_score` accumulator of the health-score loop. -/
def health_total_score (model_metrics : List (String × PerformanceMetrics)) : ℚ :=
  ((qualifying_metrics model_metrics).map fun p => model_score p.2 * sample_weight p.2).sum

/-- Mirror of `SystemAdaptationEngine.get_system_health_score`
(lines 825-863): 0.5 when no backend is tracked, 0.5 when no tracked
backend reaches sample size 5 (`total_weight == 0`) — both early returns
skip the routing-accuracy blend — and otherwise the weighted mean blended
with routing accuracy and clamped to `[0, 1]`. -/
def get_system_health_score (model_metrics : List (String × PerformanceMetrics))
    (st : RoutingState) : ℚ :=
  if model_metrics = [] then 1/2
  else if health_total_weight model_metrics = 0 then 1/2
  else
    min 1 (max 0
      ((health_total_score model_metrics / health_total_weight model_metrics) * (8/10)
        + get_routing_accuracy st * (2/10)))

/-! ## CodingDirector (src/main/coding_director.py, lines 94-308) -/

/-- One externally visible action of `process_request`: a model invocation
through `ModelManager.get_completion_by_role` (the router call or one chain
step), or — as demanded by the spec though absent from the source — an
outcome recording into `PerformanceTracker.record_interaction` or
`AdaptiveRoutingEngine.update_routing_patterns`.  The source of
`process_request` contains no call to either recording method, so the two
recording constructors are never emitted by the embedding; they exist so
that the spec's claimed recording events are expressible. -/
inductive DirectorEffect where
  | modelCall (role : String)
  | trackerRecord (backend : String) (success : Bool)
  | routingUpdate (backend : String) (success : Bool)
deriving Repr, DecidableEq

/-- Whether an effect is an outcome recording (as opposed to a model
invocation). -/
def isOutcomeRecord : DirectorEffect → Bool
  | .modelCall _ => false
  | .trackerRecord _ _ => true
  | .routingUpdate _ _ => true

/-- The outcome recordings contained in an effect trace. -/
def recordedOutcomes (effects : List DirectorEffect) : List DirectorEffect :=
  effects.filter isOutcomeRecord

/-- Mirror of `CodingDirector.classify_task` (lines 141-168) for an
initialized director: the router's answer is stripped and lowercased; any
answer outside `{math, general}`, and a failed router call, default to
`general`.  `router_response` is the optional content of the router model's
reply. -/
def classify_task (router_response : Option String) : String :=
  match router_response with
  | some content =>
    let classification := pyLower (pyStrip content)
    if classification = "math" ∨ classification = "general" then classification
    else "general"
  | none => "general"

/-- Mirror of the `primary_role_map` lookup in `process_request`
(lines 259-264): `primary_role_map.get(classification, "lead_developer")`. -/
def primary_role_map (classification : String) : String :=
  if classification = "math" then "math_specialist"
  else if classification = "general" then "lead_developer"
  else "lead_developer"

/-- Mirror of the duplicate-removing loop over `roles_to_try`
(lines 276-279), preserving first occurrences. -/
def unique_roles (roles : List String) : List String :=
  roles.foldl (fun acc r => if r ∈ acc then acc else acc ++ [r]) []

/-- The backend boundary for one request: for each role, the optional
content of the completion returned by `ModelManager.get_completion_by_role`
(`none` models an errored or timed-out call). -/
abbrev Invoker : Type := String → Option String

/-- Mirror of the usability filter of `_get_specialist_response`
(lines 215-223): a reply counts only if its content is non-empty after
stripping whitespace. -/
def get_specialist_response (invoke : Invoker) (role : String) : Option String :=
  match invoke role with
  | some content => if pyStrip content = "" then none else some content
  | none => none

/-- The chain walk of `process_request` (lines 281-286): try each role in
order, stop at the first usable response.  Returns the roles actually
invoked, in order, and the winning `(role, content)` if any. -/
def walkChain (invoke : Invoker) : List String → List String × Option (String × String)
  | [] => ([], none)
  | role :: rest =>
    match get_specialist_response invoke role with
    | some content => ([role], some (role, content))
    | none =>
      let w := walkChain invoke rest
      (role :: w.1, w.2)

/-- The structured result of `process_request`
(`CodingDirectorFinalResult`), together with the chain that was built and
the trace of external effects the call performed. -/
structure DirectorResult where
  classification : Option String
  chain : List String
  result : Option (String × String)
  error_message : Option String
  effects : List DirectorEffect
deriving Repr, DecidableEq

/-- Mirror of `CodingDirector.process_request` (lines 225-308) after input
validation: ensure initialization (a failed initialization returns a
structured error without classifying), classify via the router, build the
deduplicated escalation chain `[primary, senior_developer,
principal_architect]`, walk it, and return the winning content when the
walk found one and the all-models-failed error otherwise.  The effect trace records the router call and every
chain invocation; the source performs no outcome recording, so no
`trackerRecord`/`routingUpdate` effect is ever produced. -/
def process_request (init_ok : Bool) (user_prompt : String)
    (router_response : Option String) (invoke : Invoker) : DirectorResult :=
  if init_ok then
    let classification := classify_task router_response
    let primary_role := primary_role_map classification
    let chain := unique_roles [primary_role, "senior_developer", "principal_architect"]
    let w := walkChain invoke chain
    { classification := some classification
      chain := chain
      result := w.2
      error_message :=
        if w.2.isSome then none
        else some ("All models in the chain (" ++ String.intercalate ", " chain
          ++ ") failed to provide a response for prompt: " ++ user_prompt.take 100)
      effects := .modelCall "router" :: w.1.map .modelCall }
  else
    { classification := none
      chain := []
      result := none
      error_message := some "CodingDirector services could not be initialized."
      effects := [] }

/-! ## Concrete sample data used by witnesses and counterexamples -/

/-- Two interactions, both rated: one success at 1000 ms rated 4, one
failure at 1400 ms rated 2. -/
def sampleInteractions : List Interaction :=
  [{ response_time_ms := 1000, success := true, user_rating := some 4 },
   { response_time_ms := 1400, success := false, user_rating := some 2 }]

/-- Three interactions of which only the first and last carry a rating. -/
def partiallyRatedInteractions : List Interaction :=
  [{ response_time_ms := 1000, success := true, user_rating := some 4 },
   { response_time_ms := 1000, success := true, user_rating := none },
   { response_time_ms := 1000, success := true, user_rating := some 0 }]

/-- A neutral feature record (no keyword hits). -/
def sampleFeatures : Features :=
  { prompt_length := 5
    word_count := 1
    math_score := 0
    architecture_score := 0
    debug_score := 0
    has_code := false
    complexity_indicators := 0
    question_marks := 0
    context_type := "general"
    domain_hints := []
    estimated_complexity := 0 }

/-- A learned-pattern recommendation with confidence 0.9. -/
def learnedHigh : Recommendation :=
  { model := "mathstral:7b"
    confidence := 9/10
    source := "learned_patterns"
    reasoning := "Pattern match with 0.9 confidence" }

/-- The same learned-pattern recommendation with confidence lowered to 0.5. -/
def learnedLow : Recommendation :=
  { model := "mathstral:7b"
    confidence := 1/2
    source := "learned_patterns"
    reasoning := "Pattern match with 0.5 confidence" }

/-- The rule recommendation for a math-heavy prompt, agreeing with
`learnedHigh`/`learnedLow` on the backend. -/
def ruleMath : Recommendation :=
  { model := "mathstral:7b"
    confidence := 8/10
    source := "rule_based"
    reasoning := "High math score: 2" }

/-- The default rule recommendation, disagreeing with the learned one. -/
def ruleDefault : Recommendation :=
  { model := "deepseek-coder-v2:16b-lite-instruct"
    confidence := 1/2
    source := "rule_based"
    reasoning := "Default general coding model" }

/-- Backends for one request where only the lead developer answers. -/
def invokeLeadOnly : Invoker := fun role =>
  if role = "lead_developer" then some "print(42)" else none

/-- Backends for one request where the lead developer returns only
whitespace, the senior developer fails, and the principal architect
answers. -/
def invokeArchitectOnly : Invoker := fun role =>
  if role = "lead_developer" then some "   "
  else if role = "principal_architect" then some "Use a layered architecture."
  else none

/-- Metrics of a backend with 10 samples, perfect success, 1000 ms average
and satisfaction 5. -/
def mQual : PerformanceMetrics :=
  { success_rate := 1
    avg_response_time_ms := 1000
    user_satisfaction := 5
    accuracy_score := 0
    efficiency_score := 0
    sample_size := 10
    last_updated := 0 }

/-- Metrics of a healthy backend that never received a user rating: its
`user_satisfaction` is still the initial 0. -/
def mSatZero : PerformanceMetrics :=
  { success_rate := 1
    avg_response_time_ms := 1000
    user_satisfaction := 0
    accuracy_score := 0
    efficiency_score := 0
    sample_size := 5
    last_updated := 0 }

/-- Routing state with an empty accuracy history. -/
def st0 : RoutingState := { routing_accuracy_history := [], pattern_cache := [] }

/-- Routing state whose only recorded routing outcome was a miss. -/
def stOneMiss : RoutingState := { routing_accuracy_history := [0], pattern_cache := [] }

/-! ## Helper lemmas -/

/-- Every branch of the rule engine tags its recommendation `rule_based`. -/
theorem rule_recommendation_source (features : Features) :
    (get_rule_recommendation features).source = "rule_based" := by
  unfold get_rule_recommendation
  split_ifs <;> rfl

/-- Membership in a conditional singleton list. -/
theorem mem_if_singleton {α : Type} {c : Prop} [Decidable c] {x a : α} :
    (x ∈ if c then [a] else ([] : List α)) ↔ c ∧ x = a := by
  split_ifs with h <;> simp [h]

/-- A trace consisting solely of model invocations contains no outcome
recording. -/
theorem recordedOutcomes_modelCalls (roles : List String) :
    recordedOutcomes (roles.map DirectorEffect.modelCall) = [] := by
  induction roles with
  | nil => rfl
  | cons r rs _ => simp [recordedOutcomes, isOutcomeRecord]

/-- One `routing_optimization` application keeps the confidence threshold
inside `[0.5, 0.9]`. -/
theorem optimize_routing_threshold_bounds (accuracy t : ℚ) (h1 : 1/2 ≤ t) (h2 : t ≤ 9/10) :
    1/2 ≤ optimize_routing_threshold accuracy t ∧
      optimize_routing_threshold accuracy t ≤ 9/10 := by
  unfold optimize_routing_threshold
  split_ifs with h
  · exact ⟨le_max_left _ _, max_le (by norm_num) (by linarith)⟩
  · exact ⟨le_min (by norm_num) (by linarith), min_le_left _ _⟩

/-! ## Claims -/

/-- C3: in `_combine_recommendations` the learned (pattern) recommendation
is selected exactly when it exists with confidence at or above
`confidence_threshold`, and otherwise the rule recommendation's backend and
source are used.  (The code's literal source tags are `learned_patterns`
and `rule_based` for the spec's `learned` and `rule`.) -/
theorem combine_arbitration (pattern_rec : Option Recommendation) (rule_rec : Recommendation)
    (features : Features) (th : ℚ) (now : ℕ) :
    (∀ p, pattern_rec = some p → th ≤ p.confidence →
      (combine_recommendations pattern_rec rule_rec features th now).model = p.model ∧
      (combine_recommendations pattern_rec rule_rec features th now).confidence = p.confidence ∧
      (combine_recommendations pattern_rec rule_rec features th now).source = p.source) ∧
    ((∀ p, pattern_rec = some p → p.confidence < th) →
      (combine_recommendations pattern_rec rule_rec features th now).model = rule_rec.model ∧
      (combine_recommendations pattern_rec rule_rec features th now).source = rule_rec.source) := by
  constructor
  · rintro p rfl hp
    simp [combine_recommendations, if_pos hp]
  · intro hlow
    cases pattern_rec with
    | none => simp [combine_recommendations]
    | some p =>
      have hp := hlow p rfl
      simp [combine_recommendations, if_neg (not_le.mpr hp)]

/-- C3 witness: with learned confidence 0.9 and threshold 0.75 the decision
carries the learned backend and source; lowering the learned confidence to
0.5 yields the rule backend and source. -/
theorem combine_arbitration_witness :
    (combine_recommendations (some learnedHigh) ruleDefault sampleFeatures (3/4) 0).model
        = "mathstral:7b" ∧
    (combine_recommendations (some learnedHigh) ruleDefault sampleFeatures (3/4) 0).source
        = "learned_patterns" ∧
    (combine_recommendations (some learnedLow) ruleDefault sampleFeatures (3/4) 0).model
        = "deepseek-coder-v2:16b-lite-instruct" ∧
    (combine_recommendations (some learnedLow) ruleDefault sampleFeatures (3/4) 0).source
        = "rule_based" := by
  have h1 := (combine_arbitration (some learnedHigh) ruleDefault sampleFeatures (3/4) 0).1
    learnedHigh rfl (by norm_num [learnedHigh])
  have h2 := (combine_arbitration (some learnedLow) ruleDefault sampleFeatures (3/4) 0).2
    (by rintro p hp; injection hp with hp; subst hp; norm_num [learnedLow])
  exact ⟨h1.1, h1.2.2, h2.1, h2.2⟩

/-- C4 counterexample: learned and rule recommendations agree on
`mathstral:7b`, the learned one (confidence 0.9) clears the 0.75 threshold
and is selected, and the resulting confidence is the learned 0.9 — not
`min(1, rule_confidence + 0.2) = 1` — with no confirmation note. -/
theorem combine_boost_counterexample :
    (combine_recommendations (some learnedHigh) ruleMath sampleFeatures (3/4) 0).confidence
        = 9/10 ∧
    min 1 (ruleMath.confidence + 2/10) = 1 ∧
    (9/10 : ℚ) ≠ 1 ∧
    (combine_recommendations (some learnedHigh) ruleMath sampleFeatures (3/4) 0).reasoning
        = learnedHigh.reasoning := by
  refine ⟨?_, by norm_num [ruleMath], by norm_num, ?_⟩ <;>
    norm_num [combine_recommendations, learnedHigh, ruleMath]

/-- C4 amended: the agreement boost `min(1, rule_confidence + 0.2)` together
with the "(confirmed by patterns)" note applies exactly when the rule
recommendation is the selected one (the learned confidence is below the
threshold) and the learned recommendation agrees on the backend; when the
learned recommendation is selected its confidence is kept unboosted. -/
theorem combine_boost (pattern_rec : Option Recommendation) (rule_rec : Recommendation)
    (features : Features) (th : ℚ) (now : ℕ) :
    (∀ p, pattern_rec = some p → p.confidence < th → p.model = rule_rec.model →
      (combine_recommendations pattern_rec rule_rec features th now).confidence
          = min 1 (rule_rec.confidence + 2/10) ∧
      (combine_recommendations pattern_rec rule_rec features th now).reasoning
          = rule_rec.reasoning ++ " (confirmed by patterns)") ∧
    (∀ p, pattern_rec = some p → th ≤ p.confidence →
      (combine_recommendations pattern_rec rule_rec features th now).confidence = p.confidence ∧
      (combine_recommendations pattern_rec rule_rec features th now).reasoning = p.reasoning) ∧
    (pattern_rec = none →
      (combine_recommendations pattern_rec rule_rec features th now).confidence
          = rule_rec.confidence) := by
  refine ⟨?_, ?_, ?_⟩
  · rintro p rfl hlow hagree
    simp [combine_recommendations, if_neg (not_le.mpr hlow), hagree]
  · rintro p rfl hhigh
    simp [combine_recommendations, if_pos hhigh]
  · rintro rfl
    simp [combine_recommendations]

/-- C4 witness: learned confidence 0.5 below threshold 0.75, agreement on
`mathstral:7b`: the decision gets confidence `min(1, 0.8 + 0.2) = 1` and the
confirmation note; with learned confidence 0.9 above the threshold the
decision keeps confidence 0.9. -/
theorem combine_boost_witness :
    (combine_recommendations (some learnedLow) ruleMath sampleFeatures (3/4) 0).confidence = 1 ∧
    (combine_recommendations (some learnedLow) ruleMath sampleFeatures (3/4) 0).reasoning
        = "High math score: 2 (confirmed by patterns)" ∧
    (combine_recommendations (some learnedHigh) ruleMath sampleFeatures (3/4) 0).confidence
        = 9/10 := by
  have h1 := (combine_boost (some learnedLow) ruleMath sampleFeatures (3/4) 0).1
    learnedLow rfl (by norm_num [learnedLow]) rfl
  have h2 := (combine_boost (some learnedHigh) ruleMath sampleFeatures (3/4) 0).2.1
    learnedHigh rfl (by norm_num [learnedHigh])
  refine ⟨h1.1.trans (by norm_num [ruleMath]), h1.2.trans rfl, h2.1.trans rfl⟩

/-- C5: with a pattern store that always answers "no pattern", the decision
pipeline returns the rule-based recommendation (and leaves the cache empty,
so every later call behaves identically); and whenever an internal error
escapes the decision pipeline, the recovered result is the hard-coded
fallback decision — general-purpose backend, confidence 0.3, source
`fallback`, two fallback backends.  Totality of `get_routing_decision` and
`routing_decision_recovered` models that the method never raises. -/
theorem routing_decision_fallback (th : ℚ) (now : ℕ) (user_prompt : String)
    (context : RequestContext) :
    ((get_routing_decision (fun _ _ _ => Except.ok none) [] th now user_prompt context).1.model
        = (get_rule_recommendation (extract_features user_prompt context)).model ∧
     (get_routing_decision (fun _ _ _ => Except.ok none) [] th now user_prompt context).1.source
        = "rule_based" ∧
     (get_routing_decision (fun _ _ _ => Except.ok none) [] th now user_prompt context).2
        = []) ∧
    (routing_decision_recovered (Except.error ()) now = get_fallback_routing now ∧
     (get_fallback_routing now).model = "deepseek-coder-v2:16b-lite-instruct" ∧
     (get_fallback_routing now).confidence = 3/10 ∧
     (get_fallback_routing now).source = "fallback" ∧
     (get_fallback_routing now).fallback_models = ["codellama:13b", "wizardcoder:13b-python"]) := by
  refine ⟨⟨?_, ?_, ?_⟩, rfl, rfl, rfl, rfl, rfl⟩ <;>
    simp [get_routing_decision, get_pattern_recommendation, combine_recommendations,
      rule_recommendation_source]

/-- C7: starting anywhere in `[0.5, 0.9]`, any sequence of
`routing_optimization` applications keeps the confidence threshold in
`[0.5, 0.9]`. -/
theorem confidence_threshold_bounds (t : ℚ) (h1 : 1/2 ≤ t) (h2 : t ≤ 9/10)
    (accuracies : List ℚ) :
    1/2 ≤ iterate_optimize_routing accuracies t ∧
      iterate_optimize_routing accuracies t ≤ 9/10 := by
  induction accuracies generalizing t with
  | nil => exact ⟨h1, h2⟩
  | cons a as ih =>
    have hstep := optimize_routing_threshold_bounds a t h1 h2
    simpa [iterate_optimize_routing] using ih _ hstep.1 hstep.2

/-- C7 witness: threshold 0.75 stays in the interval over a run of three
adaptation cycles with accuracies 0, 0.9 and 0.5. -/
theorem confidence_threshold_bounds_witness :
    1/2 ≤ iterate_optimize_routing [0, 9/10, 1/2] (3/4) ∧
      iterate_optimize_routing [0, 9/10, 1/2] (3/4) ≤ 9/10 :=
  confidence_threshold_bounds (3/4) (by norm_num) (by norm_num) [0, 9/10, 1/2]

/-- C10: reporting an outcome for a decision without a `features` entry —
the error-fallback decision in particular — changes nothing: no pattern
update is emitted, the accuracy history and the cache keep their values,
hence `get_routing_accuracy` is unaffected. -/
theorem update_without_features (st : RoutingState) (d : RoutingDecision) (success : Bool)
    (h : d.features = none) :
    update_routing_patterns st d success = (st, []) ∧
    get_routing_accuracy (update_routing_patterns st d success).1 = get_routing_accuracy st ∧
    (∀ now, (get_fallback_routing now).features = none) := by
  have h1 : update_routing_patterns st d success = (st, []) := by
    unfold update_routing_patterns
    rw [h]
  exact ⟨h1, by rw [h1], fun _ => rfl⟩

/-- C10 witness: reporting success on the fallback decision leaves a state
with accuracy history `[0]` untouched, accuracy 0 included. -/
theorem update_without_features_witness :
    update_routing_patterns stOneMiss (get_fallback_routing 7) true = (stOneMiss, []) ∧
    get_routing_accuracy (update_routing_patterns stOneMiss (get_fallback_routing 7) true).1
        = 0 := by
  have h := update_without_features stOneMiss (get_fallback_routing 7) true rfl
  exact ⟨h.1, by rw [h.1]; norm_num [get_routing_accuracy, stOneMiss]⟩

/-- Multiplicative form of the running-average invariants of
`record_interaction`, provable by induction over the interaction sequence:
after any sequence of calls starting from fresh metrics, success rate times
sample size is the success count, average response time times sample size is
the total response time, and — provided every call supplied a rating —
satisfaction times sample size is the total rating. -/
theorem recordAll_stats (is : List Interaction) :
    (recordAll initialMetrics is).sample_size = is.length ∧
    (recordAll initialMetrics is).success_rate * (is.length : ℚ)
        = ((is.countP fun i => i.success : ℕ) : ℚ) ∧
    (recordAll initialMetrics is).avg_response_time_ms * (is.length : ℚ)
        = (is.map fun i => i.response_time_ms).sum ∧
    ((∀ i ∈ is, i.user_rating.isSome = true) →
      (recordAll initialMetrics is).user_satisfaction * (is.length : ℚ)
        = (is.map fun i => i.user_rating.getD 0).sum) := by
  induction is using List.reverseRecOn with
  | nil => simp [recordAll, initialMetrics]
  | append_singleton xs x ih =>
    obtain ⟨h1, h2, h3, h4⟩ := ih
    have hrec : recordAll initialMetrics (xs ++ [x])
        = record_interaction (recordAll initialMetrics xs) x := by
      simp [recordAll]
    have hcast : (((recordAll initialMetrics xs).sample_size : ℕ) : ℚ) = (xs.length : ℚ) := by
      rw [h1]
    have hne : ((xs.length : ℚ) + 1) ≠ 0 := by positivity
    refine ⟨by simp [hrec, record_interaction, h1], ?_, ?_, ?_⟩
    · rw [hrec]
      simp only [record_interaction, List.length_append, List.length_cons, List.length_nil]
      push_cast
      rw [hcast, div_mul_cancel₀ _ hne, h2]
      simp [List.countP_append, List.countP_cons]
    · rw [hrec]
      simp only [record_interaction, List.length_append, List.length_cons, List.length_nil]
      push_cast
      rw [hcast, div_mul_cancel₀ _ hne, h3]
      simp
    · intro hall
      have hx : x.user_rating.isSome = true := hall x (by simp)
      obtain ⟨r, hr⟩ := Option.isSome_iff_exists.mp hx
      have hxs : ∀ i ∈ xs, i.user_rating.isSome = true := fun i hi => hall i (by simp [hi])
      rw [hrec]
      simp only [record_interaction, List.length_append, List.length_cons, List.length_nil, hr]
      push_cast
      rw [hcast, div_mul_cancel₀ _ hne, h4 hxs]
      simp [hr]

/-- C2 amended: after any non-empty sequence of `record_interaction` calls,
`sample_size` is the number of calls, `success_rate` is the fraction of
successful calls and `avg_response_time_ms` the arithmetic mean of the
response times; and `user_satisfaction` is the arithmetic mean of the
ratings provided that every call supplied one (when some calls omit the
rating the stored value is the source's own update, which divides by the
full sample size, and need not equal the mean of the supplied ratings — see
the counterexample). -/
theorem record_interaction_means (is : List Interaction) (hne : is ≠ []) :
    (recordAll initialMetrics is).sample_size = is.length ∧
    (recordAll initialMetrics is).success_rate
        = ((is.countP fun i => i.success : ℕ) : ℚ) / (is.length : ℚ) ∧
    (recordAll initialMetrics is).avg_response_time_ms
        = (is.map fun i => i.response_time_ms).sum / (is.length : ℚ) ∧
    ((∀ i ∈ is, i.user_rating.isSome = true) →
      (recordAll initialMetrics is).user_satisfaction
        = (is.map fun i => i.user_rating.getD 0).sum / (is.length : ℚ)) := by
  obtain ⟨h1, h2, h3, h4⟩ := recordAll_stats is
  have hlen : (is.length : ℚ) ≠ 0 :=
    Nat.cast_ne_zero.mpr fun h0 => hne (List.length_eq_zero.mp h0)
  exact ⟨h1, (eq_div_iff hlen).mpr h2, (eq_div_iff hlen).mpr h3,
    fun hall => (eq_div_iff hlen).mpr (h4 hall)⟩

/-- C2 witness: two fully rated interactions (success at 1000 ms rated 4,
failure at 1400 ms rated 2) yield sample size 2, success rate 1/2, average
response time 1200 ms and satisfaction 3. -/
theorem record_interaction_means_witness :
    (recordAll initialMetrics sampleInteractions).sample_size = 2 ∧
    (recordAll initialMetrics sampleInteractions).success_rate = 1/2 ∧
    (recordAll initialMetrics sampleInteractions).avg_response_time_ms = 1200 ∧
    (recordAll initialMetrics sampleInteractions).user_satisfaction = 3 := by
  have h := record_interaction_means sampleInteractions (by simp [sampleInteractions])
  refine ⟨h.1.trans (by simp [sampleInteractions]),
    h.2.1.trans (by norm_num [sampleInteractions]),
    h.2.2.1.trans (by norm_num [sampleInteractions]),
    (h.2.2.2 (by simp [sampleInteractions])).trans (by norm_num [sampleInteractions])⟩

/-- C2 counterexample: for the sequence (rated 4, unrated, rated 0) the
stored `user_satisfaction` is 8/3 although the arithmetic mean of the two
ratings actually supplied is 2 — the claim's "for any subset of calls
supplying a rating" clause fails on the code. -/
theorem record_interaction_satisfaction_counterexample :
    (recordAll initialMetrics partiallyRatedInteractions).user_satisfaction = 8/3 ∧
    (partiallyRatedInteractions.filterMap fun i => i.user_rating).sum
        / ((partiallyRatedInteractions.filterMap fun i => i.user_rating).length : ℚ) = 2 ∧
    (8/3 : ℚ) ≠ 2 := by
  refine ⟨?_, by norm_num [partiallyRatedInteractions, List.filterMap_cons], by norm_num⟩
  norm_num [recordAll, record_interaction, initialMetrics, partiallyRatedInteractions]

/-- C9 amended: `identify_performance_issues` reports exactly the tracked
backends whose success rate is below the success-rate threshold (severity
high exactly when below 0.7), whose average response time is above the
response-time threshold (high exactly when above 15000), or whose
satisfaction is positive and below the satisfaction threshold (high exactly
when below 3.0) — a backend whose `user_satisfaction` is 0 (no rating ever
supplied) is not reported even though 0 is below the threshold. -/
theorem identify_issues_characterization (th : PerformanceThresholds)
    (mm : List (String × PerformanceMetrics)) (issue : PerformanceIssue) :
    issue ∈ identify_performance_issues th mm ↔
      ∃ p ∈ mm,
        (p.2.success_rate < th.success_rate ∧
          issue = { model := p.1
                    metric := .success_rate
                    current_value := p.2.success_rate
                    threshold := th.success_rate
                    severity := if p.2.success_rate < 7/10 then "high" else "medium" }) ∨
        (th.response_time < p.2.avg_response_time_ms ∧
          issue = { model := p.1
                    metric := .response_time
                    current_value := p.2.avg_response_time_ms
                    threshold := th.response_time
                    severity := if 15000 < p.2.avg_response_time_ms then "high"
                      else "medium" }) ∨
        (0 < p.2.user_satisfaction ∧ p.2.user_satisfaction < th.user_satisfaction ∧
          issue = { model := p.1
                    metric := .user_satisfaction
                    current_value := p.2.user_satisfaction
                    threshold := th.user_satisfaction
                    severity := if p.2.user_satisfaction < 3 then "high" else "medium" }) := by
  simp [identify_performance_issues, List.mem_flatMap, issuesFor, List.mem_append,
    mem_if_singleton, and_assoc]

/-- C9 counterexample: a healthy backend that never received a user rating
has `user_satisfaction = 0`, which is below the 4.0 threshold, yet
`identify_performance_issues` reports no issue for it because of the
`user_satisfaction > 0` guard. -/
theorem identify_issues_satisfaction_counterexample :
    identify_performance_issues defaultThresholds [("model_a", mSatZero)] = [] ∧
    mSatZero.user_satisfaction < defaultThresholds.user_satisfaction := by
  constructor
  · norm_num [identify_performance_issues, issuesFor, defaultThresholds, mSatZero]
  · norm_num [mSatZero, defaultThresholds]

/-- C8 amended: the health score always lies in `[0, 1]`; when at least one
tracked backend has sample size ≥ 5 it equals the clamped blend
`min 1 (max 0 (weighted_mean * 0.8 + routing_accuracy * 0.2))`; when no
tracked backend qualifies — zero tracked backends included — it is 1/2
directly, without the routing-accuracy blend. -/
theorem health_score_spec (mm : List (String × PerformanceMetrics)) (st : RoutingState) :
    (0 ≤ get_system_health_score mm st ∧ get_system_health_score mm st ≤ 1) ∧
    ((∃ p ∈ mm, 5 ≤ p.2.sample_size) →
      get_system_health_score mm st =
        min 1 (max 0 ((health_total_score mm / health_total_weight mm) * (8/10)
          + get_routing_accuracy st * (2/10)))) ∧
    ((∀ p ∈ mm, p.2.sample_size < 5) → get_system_health_score mm st = 1/2) := by
  refine ⟨?_, ?_, ?_⟩
  · unfold get_system_health_score
    split_ifs
    · norm_num
    · norm_num
    · exact ⟨le_min (by norm_num) (le_max_left 0 _), min_le_left 1 _⟩
  · rintro ⟨p, hp, hq⟩
    have hqual : p ∈ qualifying_metrics mm :=
      List.mem_filter.mpr ⟨hp, decide_eq_true hq⟩
    have hwpos : 0 < health_total_weight mm := by
      apply List.sum_pos
      · intro x hx
        simp only [List.mem_map] at hx
        obtain ⟨q, hqmem, rfl⟩ := hx
        have h5 : 5 ≤ q.2.sample_size := by
          have hdec := (List.mem_filter.mp hqmem).2
          exact of_decide_eq_true hdec
        have h5q : (5 : ℚ) ≤ (q.2.sample_size : ℚ) := by exact_mod_cast h5
        unfold sample_weight
        exact lt_min (by norm_num) (div_pos (by linarith) (by norm_num))
      · exact List.ne_nil_of_mem (List.mem_map_of_mem _ hqual)
    have hmm : mm ≠ [] := List.ne_nil_of_mem hp
    unfold get_system_health_score
    rw [if_neg hmm, if_neg (ne_of_gt hwpos)]
  · intro hall
    have hqnil : qualifying_metrics mm = [] := by
      refine List.filter_eq_nil_iff.mpr fun a ha => ?_
      simpa using Nat.not_le.mpr (hall a ha)
    have hw : health_total_weight mm = 0 := by
      unfold health_total_weight
      rw [hqnil]
      rfl
    unfold get_system_health_score
    by_cases hA : mm = []
    · rw [if_pos hA]
    · rw [if_neg hA, if_pos hw]

/-- C8 witness: one backend with 10 samples, perfect success, 1000 ms
average and satisfaction 5, with an empty routing history, scores
`min 1 (max 0 (1 * 0.8 + 0 * 0.2)) = 4/5`. -/
theorem health_score_spec_witness :
    get_system_health_score [("model_a", mQual)] st0 = 4/5 := by
  have h := (health_score_spec [("model_a", mQual)] st0).2.1
    ⟨("model_a", mQual), by simp, by norm_num [mQual]⟩
  rw [h]
  norm_num [health_total_score, health_total_weight, qualifying_metrics, model_score,
    sample_weight, mQual, get_routing_accuracy, st0, min_def, max_def]

/-- C8 counterexample: with zero tracked backends and a routing accuracy of
0, the code returns 1/2, while the claim's "the same blend with routing
accuracy is applied" would give `min 1 (max 0 (0.5*0.8 + 0*0.2)) = 2/5`. -/
theorem health_score_no_blend_counterexample :
    get_system_health_score [] stOneMiss = 1/2 ∧
    min 1 (max 0 ((1/2) * (8/10) + get_routing_accuracy stOneMiss * (2/10))) = 2/5 ∧
    (1/2 : ℚ) ≠ 2/5 := by
  refine ⟨rfl, ?_, by norm_num⟩
  norm_num [get_routing_accuracy, stOneMiss, min_def, max_def]

/-- The escalation chain built by `process_request` is always the
deduplicated `[primary, senior_developer, principal_architect]` for the
computed classification. -/
theorem process_request_chain (user_prompt : String) (router_response : Option String)
    (invoke : Invoker) :
    (process_request true user_prompt router_response invoke).chain
      = unique_roles [primary_role_map (classify_task router_response),
          "senior_developer", "principal_architect"] := by
  unfold process_request
  rw [if_pos rfl]

/-- The chain walk returns the first usable response, in chain order. -/
theorem walkChain_findSome (invoke : Invoker) (roles : List String) :
    (walkChain invoke roles).2
      = roles.findSome? fun r => (get_specialist_response invoke r).map fun c => (r, c) := by
  induction roles with
  | nil => rfl
  | cons r rs ih =>
    cases hr : get_specialist_response invoke r <;>
      simp [walkChain, List.findSome?_cons, hr, ih]

/-- C6: `process_request` builds the chain `[primary, senior_developer,
principal_architect]` with duplicates removed (primary being
`math_specialist` for classification `math` and `lead_developer` for
`general`), walks it in order stopping at the first non-blank response, and
in particular when the first two roles fail or answer blank and the
principal architect succeeds, the result carries the architect's content
after exactly 3 chain invocations in chain order (the `router` call being
the classification step). -/
theorem fallback_chain_order (user_prompt : String) (router_response : Option String)
    (invoke : Invoker) (content : String)
    (hgen : classify_task router_response = "general")
    (h1 : get_specialist_response invoke "lead_developer" = none)
    (h2 : get_specialist_response invoke "senior_developer" = none)
    (h3 : get_specialist_response invoke "principal_architect" = some content) :
    (process_request true user_prompt router_response invoke).chain
        = ["lead_developer", "senior_developer", "principal_architect"] ∧
    (process_request true user_prompt router_response invoke).result
        = some ("principal_architect", content) ∧
    (process_request true user_prompt router_response invoke).effects
        = [.modelCall "router", .modelCall "lead_developer", .modelCall "senior_developer",
           .modelCall "principal_architect"] ∧
    primary_role_map "math" = "math_specialist" ∧
    primary_role_map "general" = "lead_developer" ∧
    (∀ (inv : Invoker) (roles : List String),
      (walkChain inv roles).2
        = roles.findSome? fun r => (get_specialist_response inv r).map fun c => (r, c)) ∧
    (∀ (router2 : Option String) (inv : Invoker),
      (process_request true user_prompt router2 inv).chain
        = unique_roles [primary_role_map (classify_task router2), "senior_developer",
            "principal_architect"]) := by
  have hchain : unique_roles [primary_role_map (classify_task router_response),
      "senior_developer", "principal_architect"]
      = ["lead_developer", "senior_developer", "principal_architect"] := by
    rw [hgen]
    rfl
  have hwalk : walkChain invoke ["lead_developer", "senior_developer", "principal_architect"]
      = (["lead_developer", "senior_developer", "principal_architect"],
         some ("principal_architect", content)) := by
    simp [walkChain, h1, h2, h3]
  refine ⟨?_, ?_, ?_, rfl, rfl, walkChain_findSome,
    fun router2 inv => process_request_chain user_prompt router2 inv⟩ <;>
    simp [process_request, hchain, hwalk]

/-- C6 witness: the router answers `general`, the lead developer returns
whitespace only, the senior developer fails, the principal architect
answers: the architect's content is returned after the 3 chain calls. -/
theorem fallback_chain_order_witness :
    (process_request true "Explain closures" (some "general") invokeArchitectOnly).result
        = some ("principal_architect", "Use a layered architecture.") ∧
    (process_request true "Explain closures" (some "general") invokeArchitectOnly).effects
        = [.modelCall "router", .modelCall "lead_developer", .modelCall "senior_developer",
           .modelCall "principal_architect"] := by
  have h := fallback_chain_order "Explain closures" (some "general") invokeArchitectOnly
    "Use a layered architecture." (by decide) (by decide) (by decide) (by decide)
  exact ⟨h.2.1, h.2.2.1⟩

/-- C1 amended: `process_request` performs no outcome recording at all — on
every path, success, exhaustion or failed initialization alike, its effect
trace contains model invocations only, so every terminal outcome is
silently dropped rather than recorded exactly once into PerformanceTracker
and AdaptiveRoutingEngine. -/
theorem process_request_records_nothing (init_ok : Bool) (user_prompt : String)
    (router_response : Option String) (invoke : Invoker) :
    recordedOutcomes (process_request init_ok user_prompt router_response invoke).effects
      = [] := by
  unfold process_request
  split
  · show recordedOutcomes (DirectorEffect.modelCall "router" :: List.map _ _) = []
    simp [recordedOutcomes, isOutcomeRecord]
  · rfl

/-- C1 counterexample: a request that reaches a successful terminal outcome
(the lead developer answers) performs zero outcome recordings — not the
exactly-one recording the claim demands. -/
theorem process_request_drops_outcome :
    ((process_request true "Explain closures in JavaScript" (some "general")
        invokeLeadOnly).result).isSome = true ∧
    recordedOutcomes (process_request true "Explain closures in JavaScript" (some "general")
        invokeLeadOnly).effects = [] ∧
    (0 : ℕ) ≠ 1 := by
  refine ⟨by decide, by decide, by decide⟩
